import Mathlib

/-!
Shallow embedding of the connection-lifecycle and message-dispatch core of
the `bevy_stream_dingtalk` client (`src/client.rs`, `src/client/down.rs`,
`src/client/up.rs`), together with theorems settling the frozen claims
about it.

Conventions of the embedding:
* wall-clock time (`chrono::DateTime<Local>`) is an `Int` counting seconds,
  so `Duration::seconds(x)` is addition of `x`;
* the HTTP layer is an oracle value (`HttpResult`) passed to the function
  that performs the request; each outcome records how many network fetches
  the operation performed;
* JSON wire bodies are values of a small `Json` type; serde field lookup is
  `Json.getField` (field name must match exactly, extra fields ignored,
  missing field is a parse failure, as with a plain serde derive);
* logging macros are omitted except where a log is the only effect of a
  branch, in which case a dedicated action constructor keeps the branch
  observable.
-/

namespace BevyStreamDingTalk

/-- Minimal JSON value model standing for the serde_json values exchanged
on the wire. -/
inductive Json where
  | null : Json
  | bool : Bool → Json
  | num : Int → Json
  | str : String → Json
  | arr : List Json → Json
  | obj : List (String × Json) → Json

/-- Field lookup on a JSON object, as a serde derive uses to fill a struct
field; `none` on a non-object or a missing field. -/
def Json.getField : Json → String → Option Json
  | .obj fs, k => fs.lookup k
  | _, _ => none

/-- Reading a JSON value as a Rust `u32`: must be an integer number in
`[0, 2^32)`, as serde enforces. -/
def Json.asU32 : Json → Option Nat
  | .num n => if 0 ≤ n ∧ n < 4294967296 then some n.toNat else none
  | _ => none

/-- Reading a JSON value as a Rust `String`. -/
def Json.asString : Json → Option String
  | .str s => some s
  | _ => none

/-- Constant from `src/constant.rs`. -/
def GATEWAY_URL : String := "https://api.dingtalk.com/v1.0/gateway/connections/open"

/-- Constant from `src/constant.rs`. -/
def GET_TOKEN_URL : String := "https://oapi.dingtalk.com/gettoken"

/-- Mirror of `struct Subscription` (`src/client.rs`): the `r#type` field is
called `type` here. -/
structure Subscription where
  type : String
  topic : String
deriving DecidableEq, Repr

/-- Mirror of `struct ClientConfig` (`src/client.rs`); `token_expires_in`
is the `DateTime<Local>` expiry as an `Int` timestamp in seconds. -/
structure ClientConfig where
  client_id : String
  client_secret : String
  ua : String
  subscriptions : List Subscription
  access_token : String
  token_expires_in : Int
  reconnect_interval : Int
  heartbeat_interval : Int
deriving DecidableEq, Repr

/-- Mirror of `impl Default for ClientConfig`; `now` stands for the
`Local::now()` used to initialise `token_expires_in`. -/
def ClientConfig.defaultAt (now : Int) : ClientConfig :=
  { client_id := ""
    client_secret := ""
    ua := ""
    subscriptions := [⟨"EVENT", "*"⟩, ⟨"SYSTEM", "*"⟩]
    access_token := ""
    token_expires_in := now
    reconnect_interval := 1000
    heartbeat_interval := 8000 }

/-- The config installed by `Client::new`: defaults with the given id and
secret. -/
def Client.newConfig (client_id client_secret : String) (now : Int) : ClientConfig :=
  { ClientConfig.defaultAt now with
      client_id := client_id, client_secret := client_secret }

/-- The subscription-set effect of `Client::register_callback_listener`
(`src/client.rs` lines 154-198): push a `(CALLBACK, event_id)` entry unless
one is already present. The spawned broadcast-consumer task has no effect
on the subscription set and is not modelled here. -/
def register_callback_listener (cfg : ClientConfig) (event_id : String) : ClientConfig :=
  if cfg.subscriptions.any fun s => s.topic == event_id && s.type == "CALLBACK" then cfg
  else { cfg with subscriptions := cfg.subscriptions ++ [⟨"CALLBACK", event_id⟩] }

/-- Mirror of `struct TokenResponse` (`src/client.rs` lines 412-418). It
derives `Deserialize` with no rename attribute, so the serde field names
are exactly `errcode`, `access_token`, `errmsg`, `expires_in`. -/
structure TokenResponse where
  errcode : Nat
  access_token : String
  errmsg : String
  expires_in : Nat
deriving DecidableEq, Repr

/-- Serde deserialization of `TokenResponse` from a JSON body: all four
fields looked up by their snake_case names, numbers read as `u32`. -/
def TokenResponse.fromJson (j : Json) : Option TokenResponse :=
  match (j.getField "errcode").bind Json.asU32,
        (j.getField "access_token").bind Json.asString,
        (j.getField "errmsg").bind Json.asString,
        (j.getField "expires_in").bind Json.asU32 with
  | some e, some t, some m, some x => some ⟨e, t, m, x⟩
  | _, _, _, _ => none

/-- Oracle for one HTTP request: either the transport call errors, or a
response arrives with a status code and a JSON body. -/
inductive HttpResult where
  | transportError : String → HttpResult
  | response : Nat → Json → HttpResult

/-- `reqwest::StatusCode::is_success`: 2xx. -/
def statusIsSuccess (status : Nat) : Bool := 200 ≤ status && status < 300

/-- Outcome of a token operation: the returned `Result`, the config after
the operation (the shared `Mutex<ClientConfig>` contents), and the number
of network fetches performed. -/
structure FetchOutcome where
  result : Except String String
  config : ClientConfig
  fetches : Nat

/-- Mirror of `Client::get_token` (`src/client.rs` lines 214-247): one GET
to the token URL; bail on non-success status, on a body that does not parse
as `TokenResponse`, or on `errcode != 0`; on success store the token and
set the expiry to `Local::now() + Duration::seconds(expires_in)`. -/
def Client.get_token (cfg : ClientConfig) (now : Int) (resp : HttpResult) : FetchOutcome :=
  match resp with
  | .transportError e => ⟨.error e, cfg, 1⟩
  | .response status body =>
    if !statusIsSuccess status then
      ⟨.error "get token http error", cfg, 1⟩
    else
      match TokenResponse.fromJson body with
      | none => ⟨.error "get token response parse error", cfg, 1⟩
      | some token =>
        if token.errcode != 0 then
          ⟨.error "get token content error", cfg, 1⟩
        else
          ⟨.ok token.access_token,
           { cfg with
               access_token := token.access_token,
               token_expires_in := now + (token.expires_in : Int) }, 1⟩

/-- Mirror of `Client::token` (`src/client.rs` lines 200-212): snapshot the
cached token and expiry, fetch again only if `Local::now() >
token_expires_in`, otherwise return the cached value. -/
def Client.token (cfg : ClientConfig) (now : Int) (resp : HttpResult) : FetchOutcome :=
  let access_token := cfg.access_token
  let token_expires_in := cfg.token_expires_in
  if token_expires_in < now then Client.get_token cfg now resp
  else ⟨.ok access_token, cfg, 0⟩

/-- The camelCase token body given as the example in the spec. -/
def tokenCamelBody : Json :=
  .obj [("errcode", .num 0), ("accessToken", .str "T1"),
        ("errmsg", .str ""), ("expiresIn", .num 7200)]

/-- The snake_case token body that the code actually accepts. -/
def tokenSnakeBody : Json :=
  .obj [("errcode", .num 0), ("access_token", .str "T1"),
        ("errmsg", .str ""), ("expires_in", .num 7200)]

/-- Every `get_token` call performs exactly one network fetch. -/
theorem get_token_fetches (cfg : ClientConfig) (now : Int) (resp : HttpResult) :
    (Client.get_token cfg now resp).fetches = 1 := by
  unfold Client.get_token
  cases resp with
  | transportError e => rfl
  | response status body =>
    dsimp only
    split
    · rfl
    · split
      · rfl
      · split <;> rfl

/-- Claim C1: if the current time is not later than the stored expiry,
`token()` returns the cached access token and performs no fetch; if it is
later, it performs exactly one fetch, and on a successful fetch both the
cached token and the expiry are updated. -/
theorem token_cache_policy :
    (∀ (cfg : ClientConfig) (now : Int) (resp : HttpResult),
        now ≤ cfg.token_expires_in →
        Client.token cfg now resp = ⟨.ok cfg.access_token, cfg, 0⟩) ∧
    (∀ (cfg : ClientConfig) (now : Int) (resp : HttpResult),
        cfg.token_expires_in < now →
        (Client.token cfg now resp).fetches = 1) ∧
    (∀ (cfg : ClientConfig) (now : Int) (status : Nat) (body : Json) (tr : TokenResponse),
        cfg.token_expires_in < now →
        statusIsSuccess status = true →
        TokenResponse.fromJson body = some tr →
        tr.errcode = 0 →
        Client.token cfg now (.response status body) =
          ⟨.ok tr.access_token,
           { cfg with
               access_token := tr.access_token,
               token_expires_in := now + (tr.expires_in : Int) }, 1⟩) := by
  refine ⟨?_, ?_, ?_⟩
  · intro cfg now resp h
    unfold Client.token
    rw [if_neg (by omega)]
  · intro cfg now resp h
    unfold Client.token
    rw [if_pos h]
    exact get_token_fetches cfg now resp
  · intro cfg now status body tr hlt hst hjson herr
    unfold Client.token Client.get_token
    rw [if_pos hlt]
    dsimp only
    rw [hst, hjson]
    simp [herr]

/-- Witness for `token_cache_policy` at concrete inputs: a cached token
valid until time 10 is returned unchanged at time 5 with no fetch, and an
expired cache at time 20 triggers exactly one fetch. -/
theorem token_cache_policy_witness :
    Client.token { Client.newConfig "i" "s" 10 with access_token := "tok" } 5
        (.transportError "unused") =
      ⟨.ok "tok", { Client.newConfig "i" "s" 10 with access_token := "tok" }, 0⟩ ∧
    (Client.token { Client.newConfig "i" "s" 10 with access_token := "tok" } 20
        (.response 200 tokenSnakeBody)).fetches = 1 :=
  ⟨token_cache_policy.1 _ 5 _ (by decide),
   token_cache_policy.2.1 _ 20 _ (by decide)⟩

/-- Claim C6 counterexample: the spec's example body
`(errcode 0, accessToken "T1", errmsg "", expiresIn 7200)` uses camelCase
field names, which the serde derive on `TokenResponse` rejects, so a fetch
receiving it errors out instead of caching token "T1". -/
theorem token_fetch_camel_body_rejected :
    TokenResponse.fromJson tokenCamelBody = none ∧
    (Client.get_token (Client.newConfig "id" "secret" 0) 0
        (.response 200 tokenCamelBody)).result = .error "get token response parse error" ∧
    (Client.get_token (Client.newConfig "id" "secret" 0) 0
        (.response 200 tokenCamelBody)).config.access_token = "" := by
  refine ⟨rfl, rfl, rfl⟩

/-- Claim C6 (amended): the token body uses snake_case field names
`(errcode, access_token, errmsg, expires_in)`; the fetch fails when the
transport call errors or `errcode != 0`, and on success stores the token
and sets the expiry to `now + expires_in` seconds; in particular the
snake_case analogue of the spec's example received at `t0` caches token
"T1" with expiry `t0 + 7200`. -/
theorem token_fetch_contract :
    (∀ (cfg : ClientConfig) (now : Int) (e : String),
        Client.get_token cfg now (.transportError e) = ⟨.error e, cfg, 1⟩) ∧
    (∀ (cfg : ClientConfig) (now : Int) (status : Nat) (body : Json) (tr : TokenResponse),
        statusIsSuccess status = true →
        TokenResponse.fromJson body = some tr →
        tr.errcode ≠ 0 →
        Client.get_token cfg now (.response status body) =
          ⟨.error "get token content error", cfg, 1⟩) ∧
    (∀ (cfg : ClientConfig) (now : Int) (status : Nat) (body : Json) (tr : TokenResponse),
        statusIsSuccess status = true →
        TokenResponse.fromJson body = some tr →
        tr.errcode = 0 →
        Client.get_token cfg now (.response status body) =
          ⟨.ok tr.access_token,
           { cfg with
               access_token := tr.access_token,
               token_expires_in := now + (tr.expires_in : Int) }, 1⟩) ∧
    (∀ t0 : Int,
        Client.get_token (Client.newConfig "id" "secret" t0) t0
            (.response 200 tokenSnakeBody) =
          ⟨.ok "T1",
           { Client.newConfig "id" "secret" t0 with
               access_token := "T1", token_expires_in := t0 + 7200 }, 1⟩) := by
  refine ⟨?_, ?_, ?_, ?_⟩
  · intro cfg now e
    rfl
  · intro cfg now status body tr hst hjson herr
    unfold Client.get_token
    dsimp only
    rw [hst, hjson]
    simp [herr]
  · intro cfg now status body tr hst hjson herr
    unfold Client.get_token
    dsimp only
    rw [hst, hjson]
    simp [herr]
  · intro t0
    have hst : statusIsSuccess 200 = true := rfl
    have hj : TokenResponse.fromJson tokenSnakeBody = some ⟨0, "T1", "", 7200⟩ := rfl
    unfold Client.get_token
    dsimp only
    rw [hst, hj]
    simp

/-- Witness for `token_fetch_contract`: the content-error and success
branches exercised on concrete bodies at time 0. -/
theorem token_fetch_contract_witness :
    Client.get_token (Client.newConfig "id" "secret" 0) 0
        (.response 200 tokenSnakeBody) =
      ⟨.ok "T1",
       { Client.newConfig "id" "secret" 0 with
           access_token := "T1", token_expires_in := 7200 }, 1⟩ ∧
    Client.get_token (Client.newConfig "id" "secret" 0) 0 (.transportError "dns failure") =
      ⟨.error "dns failure", Client.newConfig "id" "secret" 0, 1⟩ := by
  refine ⟨?_, token_fetch_contract.1 _ 0 "dns failure"⟩
  have h := token_fetch_contract.2.2.2 0
  simpa using h

/-- Mirror of `struct EventData` (`src/client/down.rs`). -/
structure EventData where
  event_type : String
  event_born_time : String
  event_id : String
  event_corp_id : String
  event_unified_app_id : String
deriving DecidableEq, Repr

/-- Mirror of `struct StreamDownHeaders` (`src/client/down.rs`); the
flattened `EventData` is the `event` field. -/
structure StreamDownHeaders where
  app_id : String
  connection_id : String
  content_type : String
  message_id : String
  time : String
  topic : String
  event : EventData
deriving DecidableEq, Repr

/-- Mirror of `struct ClientDownStream` (`src/client/down.rs`); `r#type`
is called `type`. -/
structure ClientDownStream where
  spec_version : String
  type : String
  headers : StreamDownHeaders
  data : String
deriving DecidableEq, Repr

/-- Mirror of `struct StreamUpHeader` (`src/client/up.rs`). -/
structure StreamUpHeader where
  content_type : String
  message_id : String
deriving DecidableEq, Repr

/-- Mirror of `struct ClientUpStream` (`src/client/up.rs`). -/
structure ClientUpStream where
  code : Nat
  headers : StreamUpHeader
  message : String
  data : String
deriving DecidableEq, Repr

/-- Mirror of `ClientUpStream::new` (`src/client/up.rs` lines 152-167). -/
def ClientUpStream.new (data : String) (message_id : String) : ClientUpStream :=
  { code := 200
    headers := { content_type := "application/json", message_id := message_id }
    message := "OK"
    data := data }

/-- Mirror of `struct EventAckData` (`src/client/up.rs`). -/
structure EventAckData where
  status : String
  message : String
deriving DecidableEq, Repr

/-- Mirror of `EventAckData::SUCCESS`. -/
def EventAckData.SUCCESS : String := "SUCCESS"

/-- Mirror of `EventAckData::LATER`. -/
def EventAckData.LATER : String := "LATER"

/-- Mirror of `impl Default for EventAckData`. -/
def EventAckData.defaultAck : EventAckData := ⟨EventAckData.SUCCESS, ""⟩

/-- serde_json string escaping, restricted to the quote and backslash cases
(the payloads in this development contain no control characters). -/
def escapeJsonString (s : String) : String :=
  s.foldl (fun acc c =>
    acc ++ (if c = '\\' then "\\\\" else if c = '"' then "\\\"" else String.singleton c)) ""

/-- The string `serde_json::to_string` produces for an `EventAckData`
value: an object with the `status` and `message` string fields in
declaration order. -/
def EventAckData.serializeJson (a : EventAckData) : String :=
  "\x7b\"status\":\"" ++ escapeJsonString a.status ++
    "\",\"message\":\"" ++ escapeJsonString a.message ++ "\"\x7d"

/-- The string `serde_json::to_string(&json!(\x7b"response": \x7b\x7d\x7d))`
produces in the CALLBACK arm of `Client::on_down_stream`
(`src/client/down.rs` line 25). -/
def callbackAckData : String := "\x7b\"response\":\x7b\x7d\x7d"

/-- The serialization of a bare empty JSON object, for comparison with
`callbackAckData`. -/
def emptyObjectJson : String := "\x7b\x7d"

/-- Observable effects of dispatching one inbound frame: sending an
upstream ack through the websocket sink, publishing the frame on the
broadcast channel, or logging an unhandled case (`error!` for an unknown
frame type, `warn!` for an unknown SYSTEM topic). Pure debug/trace logs are
omitted. Subscriber handlers are separate tasks fed by the broadcast
channel; dispatching never invokes them, which is visible here in that no
action constructor runs a handler. -/
inductive DispatchAction where
  | sendAck : ClientUpStream → DispatchAction
  | broadcast : ClientDownStream → DispatchAction
  | logUnknownType : String → DispatchAction
  | logUnknownSystemTopic : String → DispatchAction
deriving DecidableEq, Repr

/-- Mirror of `Client::on_system` (`src/client/down.rs` lines 46-61):
`"ping"` echoes the frame's raw data and messageId in an ack; the four
informational topics do nothing; an unknown topic is logged. -/
def Client.on_system (p : ClientDownStream) : List DispatchAction :=
  match p.headers.topic with
  | "CONNECTED" => []
  | "REGISTERED" => []
  | "disconnect" => []
  | "KEEPALIVE" => []
  | "ping" => [.sendAck (ClientUpStream.new p.data p.headers.message_id)]
  | t => [.logUnknownSystemTopic t]

/-- Mirror of `Client::on_event` (`src/client/down.rs` lines 37-44): run
the registered event callback and send its serialized ack addressed to the
originating messageId. -/
def Client.on_event (cb : EventData → EventAckData) (message_id : String)
    (p : EventData) : List DispatchAction :=
  [.sendAck (ClientUpStream.new ((cb p).serializeJson) message_id)]

/-- Mirror of `Client::on_down_stream` (`src/client/down.rs` lines 19-35):
dispatch on the frame type; the CALLBACK arm first sends the generic ack,
then broadcasts the frame. -/
def Client.on_down_stream (cb : EventData → EventAckData)
    (p : ClientDownStream) : List DispatchAction :=
  match p.type with
  | "SYSTEM" => Client.on_system p
  | "EVENT" => Client.on_event cb p.headers.message_id p.headers.event
  | "CALLBACK" =>
      [.sendAck (ClientUpStream.new callbackAckData p.headers.message_id),
       .broadcast p]
  | t => [.logUnknownType t]

/-- The default event callback installed by `Client::new`
(`src/client.rs` lines 113-116). -/
def defaultEventCallback : EventData → EventAckData := fun _ => EventAckData.defaultAck

/-- A concrete CALLBACK frame, used to exhibit the shape of the generic
ack. -/
def callbackFrameEx : ClientDownStream :=
  { spec_version := "1.0"
    type := "CALLBACK"
    headers :=
      { app_id := ""
        connection_id := ""
        content_type := "application/json"
        message_id := "m2"
        time := "0"
        topic := "/v1.0/im/bot/messages/get"
        event := ⟨"", "", "", "", ""⟩ }
    data := "payload" }

/-- A concrete SYSTEM ping frame matching the spec scenario. -/
def systemPingFrameEx : ClientDownStream :=
  { spec_version := "1.0"
    type := "SYSTEM"
    headers :=
      { app_id := ""
        connection_id := ""
        content_type := "application/json"
        message_id := "m1"
        time := "0"
        topic := "ping"
        event := ⟨"", "", "", "", ""⟩ }
    data := "PONG" }

/-- Every ack emitted by `on_system` echoes the frame's raw data and
messageId. -/
theorem on_system_ack_mem (p : ClientDownStream) (u : ClientUpStream)
    (h : DispatchAction.sendAck u ∈ Client.on_system p) :
    u = ClientUpStream.new p.data p.headers.message_id := by
  unfold Client.on_system at h
  split at h <;> simp_all

/-- Claim C4 counterexample: for the concrete CALLBACK frame
`callbackFrameEx`, the ack sent ahead of the broadcast carries data
`"\x7b\"response\":\x7b\x7d\x7d"`, which is not the serialization
`"\x7b\x7d"` of an empty JSON object. -/
theorem callback_ack_not_bare_empty_object :
    Client.on_down_stream defaultEventCallback callbackFrameEx =
      [.sendAck (ClientUpStream.new "\x7b\"response\":\x7b\x7d\x7d" "m2"),
       .broadcast callbackFrameEx] ∧
    callbackAckData ≠ emptyObjectJson := by
  exact ⟨rfl, by decide⟩

/-- Claim C4 (amended): for every CALLBACK frame the dispatcher emits
exactly the ack followed by the broadcast — the ack's data is the
serialization of the one-field object `(response: empty object)`, its
messageId echoes the frame's, the send precedes the publication, and no
subscriber handler is invoked by the dispatch. -/
theorem callback_ack_precedes_broadcast :
    ∀ (cb : EventData → EventAckData) (p : ClientDownStream),
      p.type = "CALLBACK" →
      Client.on_down_stream cb p =
        [.sendAck (ClientUpStream.new callbackAckData p.headers.message_id),
         .broadcast p] ∧
      (ClientUpStream.new callbackAckData p.headers.message_id).headers.message_id
        = p.headers.message_id := by
  intro cb p h
  refine ⟨?_, rfl⟩
  unfold Client.on_down_stream
  rw [h]
  rfl

/-- Witness for `callback_ack_precedes_broadcast` at the concrete frame
`callbackFrameEx`. -/
theorem callback_ack_precedes_broadcast_witness :
    Client.on_down_stream defaultEventCallback callbackFrameEx =
      [.sendAck (ClientUpStream.new callbackAckData "m2"),
       .broadcast callbackFrameEx] :=
  (callback_ack_precedes_broadcast defaultEventCallback callbackFrameEx rfl).1

/-- Claim C5: every UpstreamAck the dispatcher sends — for SYSTEM "ping",
EVENT, and CALLBACK frames alike — has code 200, contentType
"application/json", message "OK", and echoes the triggering frame's
messageId. -/
theorem upstream_ack_shape :
    ∀ (cb : EventData → EventAckData) (p : ClientDownStream) (u : ClientUpStream),
      DispatchAction.sendAck u ∈ Client.on_down_stream cb p →
      u.code = 200 ∧ u.headers.content_type = "application/json" ∧
        u.message = "OK" ∧ u.headers.message_id = p.headers.message_id := by
  intro cb p u h
  unfold Client.on_down_stream at h
  split at h
  · have := on_system_ack_mem p u h
    subst this
    exact ⟨rfl, rfl, rfl, rfl⟩
  · unfold Client.on_event at h
    simp only [List.mem_singleton, DispatchAction.sendAck.injEq] at h
    subst h
    exact ⟨rfl, rfl, rfl, rfl⟩
  · simp only [List.mem_cons, List.mem_singleton] at h
    rcases h with h | h
    · rw [DispatchAction.sendAck.injEq] at h
      subst h
      exact ⟨rfl, rfl, rfl, rfl⟩
    · exact absurd h (by simp)
  · simp at h

/-- Witness for `upstream_ack_shape` at the SYSTEM ping scenario frame. -/
theorem upstream_ack_shape_witness :
    (ClientUpStream.new "PONG" "m1").code = 200 ∧
    (ClientUpStream.new "PONG" "m1").headers.content_type = "application/json" ∧
    (ClientUpStream.new "PONG" "m1").message = "OK" ∧
    (ClientUpStream.new "PONG" "m1").headers.message_id
      = systemPingFrameEx.headers.message_id :=
  upstream_ack_shape defaultEventCallback systemPingFrameEx
    (ClientUpStream.new "PONG" "m1") (by decide)

/-- Claim C8: a SYSTEM frame with topic "ping" yields exactly one ack
echoing the frame's raw data and messageId; a SYSTEM frame with topic
"CONNECTED", "REGISTERED", "disconnect" or "KEEPALIVE" yields no actions
at all (no reply, no state change). -/
theorem system_frame_dispatch :
    (∀ (cb : EventData → EventAckData) (p : ClientDownStream),
        p.type = "SYSTEM" → p.headers.topic = "ping" →
        Client.on_down_stream cb p =
          [.sendAck (ClientUpStream.new p.data p.headers.message_id)]) ∧
    (∀ (cb : EventData → EventAckData) (p : ClientDownStream),
        p.type = "SYSTEM" →
        (p.headers.topic = "CONNECTED" ∨ p.headers.topic = "REGISTERED" ∨
         p.headers.topic = "disconnect" ∨ p.headers.topic = "KEEPALIVE") →
        Client.on_down_stream cb p = []) := by
  constructor
  · intro cb p ht htop
    unfold Client.on_down_stream Client.on_system
    rw [ht, htop]
    rfl
  · intro cb p ht htop
    unfold Client.on_down_stream Client.on_system
    rw [ht]
    rcases htop with h | h | h | h <;> rw [h] <;> rfl

/-- Witness for `system_frame_dispatch`: the spec scenario frame (SYSTEM,
topic "ping", messageId "m1", data "PONG") produces the outbound ack with
code 200, contentType "application/json", messageId "m1", message "OK",
data "PONG"; and a CONNECTED frame produces nothing. -/
theorem system_frame_dispatch_witness :
    Client.on_down_stream defaultEventCallback systemPingFrameEx =
      [.sendAck ⟨200, ⟨"application/json", "m1"⟩, "OK", "PONG"⟩] ∧
    Client.on_down_stream defaultEventCallback
        { systemPingFrameEx with
            headers := { systemPingFrameEx.headers with topic := "CONNECTED" } } = [] :=
  ⟨system_frame_dispatch.1 defaultEventCallback systemPingFrameEx rfl rfl,
   system_frame_dispatch.2 defaultEventCallback _ rfl (Or.inl rfl)⟩

/-- Mirror of `struct EndpointResponse` (`src/client.rs` lines 480-484). -/
structure EndpointResponse where
  endpoint : String
  ticket : String
deriving DecidableEq, Repr

/-- Serde deserialization of `EndpointResponse`: the two string fields
`endpoint` and `ticket`. -/
def EndpointResponse.fromJson (j : Json) : Option EndpointResponse :=
  match (j.getField "endpoint").bind Json.asString,
        (j.getField "ticket").bind Json.asString with
  | some e, some t => some ⟨e, t⟩
  | _, _ => none

/-- Serde serialization of `Subscription`: `r#type` serializes under the
name `type`. -/
def Subscription.toJson (s : Subscription) : Json :=
  .obj [("type", .str s.type), ("topic", .str s.topic)]

/-- Serde serialization of `ClientConfig` as POSTed by `get_endpoint`:
camelCase keys in declaration order, with `access_token`,
`token_expires_in`, `reconnect_interval` and `heartbeat_interval` skipped
(`#[serde(skip_serializing)]`). -/
def ClientConfig.serializeJson (cfg : ClientConfig) : Json :=
  .obj [("clientId", .str cfg.client_id),
        ("clientSecret", .str cfg.client_secret),
        ("ua", .str cfg.ua),
        ("subscriptions", .arr (cfg.subscriptions.map Subscription.toJson))]

/-- The gateway POST issued by `get_endpoint`: URL, JSON body, `Accept`
header and `access-token` header. -/
structure GatewayRequest where
  url : String
  body : Json
  accept : String
  access_token : String

/-- Outcome of `get_endpoint`: the returned `Result`, the config after the
forced token fetch, the number of token fetches performed, and the gateway
request issued (none when the token fetch already failed). -/
structure EndpointOutcome where
  result : Except String String
  config : ClientConfig
  fetches : Nat
  request : Option GatewayRequest

/-- Mirror of `Client::get_endpoint` (`src/client.rs` lines 249-273): it
calls `get_token` directly (never the caching `token()`), POSTs the updated
config snapshot to `GATEWAY_URL` with the `access-token` header, bails on
non-success status or a malformed body, and returns
`endpoint + "?ticket=" + ticket`. -/
def Client.get_endpoint (cfg : ClientConfig) (now : Int)
    (tokenResp gatewayResp : HttpResult) : EndpointOutcome :=
  match Client.get_token cfg now tokenResp with
  | ⟨.error e, cfg2, fetches⟩ => ⟨.error e, cfg2, fetches, none⟩
  | ⟨.ok token, cfg2, fetches⟩ =>
    match gatewayResp with
    | .transportError e =>
        ⟨.error e, cfg2, fetches,
         some ⟨GATEWAY_URL, cfg2.serializeJson, "application/json", token⟩⟩
    | .response status body =>
      if !statusIsSuccess status then
        ⟨.error "get endpoint http error", cfg2, fetches,
         some ⟨GATEWAY_URL, cfg2.serializeJson, "application/json", token⟩⟩
      else
        match EndpointResponse.fromJson body with
        | none =>
            ⟨.error "get endpoint response parse error", cfg2, fetches,
             some ⟨GATEWAY_URL, cfg2.serializeJson, "application/json", token⟩⟩
        | some er =>
            ⟨.ok (er.endpoint ++ "?ticket=" ++ er.ticket), cfg2, fetches,
             some ⟨GATEWAY_URL, cfg2.serializeJson, "application/json", token⟩⟩

/-- Claim C7: `get_endpoint` always performs a fresh token fetch (exactly
one, even when the cached token is still valid); when the fetch succeeds it
POSTs the updated Credentials snapshot to the gateway authenticated by the
`access-token` header; it fails on non-success HTTP status or a malformed
body, and on success returns `endpoint ++ "?ticket=" ++ ticket`. -/
theorem endpoint_negotiation :
    (∀ (cfg : ClientConfig) (now : Int) (tokenResp gatewayResp : HttpResult),
        (Client.get_endpoint cfg now tokenResp gatewayResp).fetches = 1) ∧
    (∀ (cfg : ClientConfig) (now : Int) (tokenResp gatewayResp : HttpResult) (tok : String),
        (Client.get_token cfg now tokenResp).result = .ok tok →
        (Client.get_endpoint cfg now tokenResp gatewayResp).request =
          some ⟨GATEWAY_URL,
                ClientConfig.serializeJson (Client.get_token cfg now tokenResp).config,
                "application/json", tok⟩) ∧
    (∀ (cfg : ClientConfig) (now : Int) (tokenResp : HttpResult) (tok : String)
        (status : Nat) (body : Json),
        (Client.get_token cfg now tokenResp).result = .ok tok →
        statusIsSuccess status = false →
        (Client.get_endpoint cfg now tokenResp (.response status body)).result =
          .error "get endpoint http error") ∧
    (∀ (cfg : ClientConfig) (now : Int) (tokenResp : HttpResult) (tok : String)
        (status : Nat) (body : Json),
        (Client.get_token cfg now tokenResp).result = .ok tok →
        statusIsSuccess status = true →
        EndpointResponse.fromJson body = none →
        (Client.get_endpoint cfg now tokenResp (.response status body)).result =
          .error "get endpoint response parse error") ∧
    (∀ (cfg : ClientConfig) (now : Int) (tokenResp : HttpResult) (tok : String)
        (status : Nat) (body : Json) (er : EndpointResponse),
        (Client.get_token cfg now tokenResp).result = .ok tok →
        statusIsSuccess status = true →
        EndpointResponse.fromJson body = some er →
        (Client.get_endpoint cfg now tokenResp (.response status body)).result =
          .ok (er.endpoint ++ "?ticket=" ++ er.ticket)) := by
  refine ⟨?_, ?_, ?_, ?_, ?_⟩
  · intro cfg now tokenResp gatewayResp
    have hf := get_token_fetches cfg now tokenResp
    unfold Client.get_endpoint
    rcases hgt : Client.get_token cfg now tokenResp with ⟨res, cfg2, n⟩
    rw [hgt] at hf
    cases res with
    | error e => exact hf
    | ok tk =>
      cases gatewayResp with
      | transportError e => exact hf
      | response status body =>
        dsimp only
        split
        · exact hf
        · split <;> exact hf
  · intro cfg now tokenResp gatewayResp tok h
    unfold Client.get_endpoint
    rcases hgt : Client.get_token cfg now tokenResp with ⟨res, cfg2, n⟩
    rw [hgt] at h
    cases res with
    | error e => exact absurd h (by simp)
    | ok tk =>
      have htk : tk = tok := by simpa using h
      subst htk
      cases gatewayResp with
      | transportError e => rfl
      | response status body =>
        dsimp only
        split
        · rfl
        · split <;> rfl
  · intro cfg now tokenResp tok status body h hst
    unfold Client.get_endpoint
    rcases hgt : Client.get_token cfg now tokenResp with ⟨res, cfg2, n⟩
    rw [hgt] at h
    cases res with
    | error e => exact absurd h (by simp)
    | ok tk =>
      dsimp only
      rw [hst]
      rfl
  · intro cfg now tokenResp tok status body h hst hj
    unfold Client.get_endpoint
    rcases hgt : Client.get_token cfg now tokenResp with ⟨res, cfg2, n⟩
    rw [hgt] at h
    cases res with
    | error e => exact absurd h (by simp)
    | ok tk =>
      dsimp only
      rw [hst, hj]
      rfl
  · intro cfg now tokenResp tok status body er h hst hj
    unfold Client.get_endpoint
    rcases hgt : Client.get_token cfg now tokenResp with ⟨res, cfg2, n⟩
    rw [hgt] at h
    cases res with
    | error e => exact absurd h (by simp)
    | ok tk =>
      dsimp only
      rw [hst, hj]
      rfl

/-- A well-formed gateway body for the witness. -/
def endpointBodyEx : Json :=
  .obj [("endpoint", .str "wss://gw.example"), ("ticket", .str "tk9")]

/-- Witness for `endpoint_negotiation`: with a valid cached token (expiry
5, now 0) a concrete negotiation still performs one fresh fetch, issues the
gateway POST with the `access-token` header, and returns the assembled
websocket URL. -/
theorem endpoint_negotiation_witness :
    (Client.get_endpoint (Client.newConfig "id" "secret" 5) 0
        (.response 200 tokenSnakeBody) (.response 200 endpointBodyEx)).fetches = 1 ∧
    (Client.get_endpoint (Client.newConfig "id" "secret" 5) 0
        (.response 200 tokenSnakeBody) (.response 200 endpointBodyEx)).result =
      .ok "wss://gw.example?ticket=tk9" :=
  ⟨endpoint_negotiation.1 _ 0 _ _,
   endpoint_negotiation.2.2.2.2 (Client.newConfig "id" "secret" 5) 0
     (.response 200 tokenSnakeBody) "T1" 200 endpointBodyEx ⟨"wss://gw.example", "tk9"⟩
     rfl rfl rfl⟩

/-- The atomic flags of `struct Client`: `alive` and `user_exit`. -/
structure ClientFlags where
  alive : Bool
  user_exit : Bool
deriving DecidableEq, Repr

/-- Mirror of `Client::exit` (`src/client.rs` lines 406-409): store `true`
into `user_exit` (and wake any abort waiters, which carries no state). -/
def Client.exit (s : ClientFlags) : ClientFlags := { s with user_exit := true }

/-- Oracle inputs for one iteration of the `connect` loop:
`reconnect_interval` is the config value read at the top of the iteration,
`endpoint` and `serveResult` are the outcomes of `get_endpoint` and
`serve`, and `user_exit` is the value of the atomic flag at the loop-end
check. -/
structure EpochInput where
  reconnect_interval : Int
  endpoint : Except String String
  serveResult : Except String Unit
  user_exit : Bool

/-- Observable steps of `Client::connect`. -/
inductive ConnectAction where
  | negotiate : ConnectAction
  | serve : ConnectAction
  | sleepReconnect : Int → ConnectAction
  | done : ConnectAction
  | failed : String → ConnectAction
deriving DecidableEq, Repr

/-- Mirror of `Client::connect` (`src/client.rs` lines 385-404) as the
trace of one run: each iteration negotiates an endpoint (an error
propagates out through `?`), serves (likewise), then either sleeps
`reconnect_interval` and loops when `reconnect_interval > 0` and the
`user_exit` flag is unset, or breaks and returns `Ok`. The oracle list
bounds how many iterations are observed. -/
def Client.connectTrace : List EpochInput → List ConnectAction
  | [] => []
  | e :: rest =>
    ConnectAction.negotiate ::
      match e.endpoint with
      | .error err => [ConnectAction.failed err]
      | .ok _ =>
        ConnectAction.serve ::
          match e.serveResult with
          | .error err => [ConnectAction.failed err]
          | .ok _ =>
            if e.reconnect_interval > 0 && !e.user_exit then
              ConnectAction.sleepReconnect e.reconnect_interval ::
                Client.connectTrace rest
            else
              [ConnectAction.done]

/-- Claim C2: after a serve phase completes normally, connect starts
another cycle (sleep, then a fresh negotiation) iff the reconnect interval
is positive and exit has not been requested, and otherwise returns;
`exit()` is idempotent and, once requested, the current epoch ends without
any reconnect sleep or renewed negotiation. -/
theorem reconnect_exit_policy :
    (∀ (e : EpochInput) (rest : List EpochInput) (u : String),
        e.endpoint = .ok u → e.serveResult = .ok () →
        (Client.connectTrace (e :: rest) =
            ConnectAction.negotiate :: ConnectAction.serve ::
              ConnectAction.sleepReconnect e.reconnect_interval ::
                Client.connectTrace rest
          ↔ 0 < e.reconnect_interval ∧ e.user_exit = false)) ∧
    (∀ (e : EpochInput) (rest : List EpochInput) (u : String),
        e.endpoint = .ok u → e.serveResult = .ok () →
        ¬(0 < e.reconnect_interval ∧ e.user_exit = false) →
        Client.connectTrace (e :: rest) = [.negotiate, .serve, .done]) ∧
    (∀ s : ClientFlags,
        Client.exit (Client.exit s) = Client.exit s ∧
        (Client.exit s).user_exit = true) ∧
    (∀ (e : EpochInput) (rest : List EpochInput),
        e.user_exit = true →
        (∀ ms : Int,
            ConnectAction.sleepReconnect ms ∉ Client.connectTrace (e :: rest)) ∧
        ConnectAction.negotiate ∉ (Client.connectTrace (e :: rest)).tail) := by
  have hbranch : ∀ (e : EpochInput) (rest : List EpochInput) (u : String),
      e.endpoint = .ok u → e.serveResult = .ok () →
      Client.connectTrace (e :: rest) =
        ConnectAction.negotiate :: ConnectAction.serve ::
          (if e.reconnect_interval > 0 && !e.user_exit then
            ConnectAction.sleepReconnect e.reconnect_interval ::
              Client.connectTrace rest
          else [ConnectAction.done]) := by
    intro e rest u hep hs
    simp only [Client.connectTrace]
    rw [hep, hs]
  refine ⟨?_, ?_, ?_, ?_⟩
  · intro e rest u hep hs
    rw [hbranch e rest u hep hs]
    by_cases hc : e.reconnect_interval > 0 ∧ e.user_exit = false
    · rw [if_pos (by simp [hc.1, hc.2])]
      simp [hc]
    · rw [if_neg (by
        intro hb
        rw [Bool.and_eq_true, Bool.not_eq_true'] at hb
        exact hc ⟨by exact_mod_cast (decide_eq_true_eq.mp hb.1), hb.2⟩)]
      simp only [List.cons.injEq, true_and]
      constructor
      · intro hcontra
        exact absurd hcontra.1 (by simp)
      · intro hcontra
        exact absurd hcontra hc
  · intro e rest u hep hs hc
    rw [hbranch e rest u hep hs]
    rw [if_neg (by
      intro hb
      rw [Bool.and_eq_true, Bool.not_eq_true'] at hb
      exact hc ⟨by exact_mod_cast (decide_eq_true_eq.mp hb.1), hb.2⟩)]
  · intro s
    exact ⟨rfl, rfl⟩
  · intro e rest hx
    have hcond : (e.reconnect_interval > 0 && !e.user_exit) = false := by
      rw [hx]
      simp
    constructor
    · intro ms
      simp only [Client.connectTrace]
      cases hep : e.endpoint with
      | error err => simp
      | ok u =>
        dsimp only
        cases hs : e.serveResult with
        | error err => simp
        | ok v =>
          dsimp only
          rw [hcond]
          simp
    · simp only [Client.connectTrace]
      cases hep : e.endpoint with
      | error err => simp
      | ok u =>
        dsimp only
        cases hs : e.serveResult with
        | error err => simp
        | ok v =>
          dsimp only
          rw [hcond]
          simp

/-- Witness for `reconnect_exit_policy` at concrete epochs: with interval
1000 and no exit the trace loops through a sleep, and with `user_exit` set
the same epoch ends in `done` with no reconnect. -/
theorem reconnect_exit_policy_witness :
    Client.connectTrace [⟨1000, .ok "u", .ok (), false⟩] =
      [.negotiate, .serve, .sleepReconnect 1000] ∧
    Client.connectTrace [⟨1000, .ok "u", .ok (), true⟩] =
      [.negotiate, .serve, .done] ∧
    Client.exit (Client.exit ⟨true, false⟩) = Client.exit ⟨true, false⟩ :=
  ⟨by
    have h := (reconnect_exit_policy.1 ⟨1000, .ok "u", .ok (), false⟩ [] "u" rfl rfl).mpr
      ⟨by norm_num, rfl⟩
    simpa using h,
   reconnect_exit_policy.2.1 ⟨1000, .ok "u", .ok (), true⟩ [] "u" rfl rfl (by simp),
   (reconnect_exit_policy.2.2.1 ⟨true, false⟩).1⟩

/-- Liveness-related state shared between the heartbeat watchdog task and
the dispatcher: the `alive` atomic flag, plus whether the watchdog has
signalled abort and stopped. -/
structure HbState where
  alive : Bool
  aborted : Bool
deriving DecidableEq, Repr

/-- Events acting on the heartbeat state: a watchdog tick (top of the
`loop` in `serve`, `src/client.rs` lines 310-321) or the dispatcher
receiving a transport pong (`Message::Pong` arm of `process`, lines
358-361). -/
inductive HbEvent where
  | tick : HbEvent
  | pong : HbEvent
deriving DecidableEq, Repr

/-- Observable effects of the watchdog loop body. -/
inductive HbAction where
  | abortSignal : HbAction
  | ping : HbAction
  | sleepInterval : HbAction
deriving DecidableEq, Repr

/-- One step of the heartbeat system. A tick after the watchdog has
stopped does nothing; otherwise, a tick with the liveness flag down
signals abort and stops, and a tick with it up clears the flag, pings, and
sleeps one interval. A pong always stores `true` into the flag. -/
def hbStep (s : HbState) : HbEvent → HbState × List HbAction
  | .pong => ({ s with alive := true }, [])
  | .tick =>
    if s.aborted then (s, [])
    else if !s.alive then ({ s with aborted := true }, [HbAction.abortSignal])
    else ({ s with alive := false }, [HbAction.ping, HbAction.sleepInterval])

/-- Run of the heartbeat system over a sequence of events, collecting the
emitted actions. -/
def hbRun (s : HbState) : List HbEvent → HbState × List HbAction
  | [] => (s, [])
  | e :: rest =>
    ((hbRun (hbStep s e).1 rest).1, (hbStep s e).2 ++ (hbRun (hbStep s e).1 rest).2)

/-- The watchdog task spawned by `serve` (`src/client.rs` lines 304-324),
carrying the captured heartbeat interval; spawned only under the
`heartbeat_interval > 0` guard. -/
structure WatchdogTask where
  interval : Int
deriving DecidableEq, Repr

/-- The `if heartbeat_interval > 0 \x7b tokio::spawn(...) \x7d` decision in
`serve`. -/
def Client.serveWatchdog (cfg : ClientConfig) : Option WatchdogTask :=
  if cfg.heartbeat_interval > 0 then some ⟨cfg.heartbeat_interval⟩ else none

/-- Once the watchdog has aborted, it stays aborted. -/
theorem hbStep_aborted_mono (s : HbState) (e : HbEvent)
    (h : s.aborted = true) : ((hbStep s e).1).aborted = true := by
  cases e with
  | pong => exact h
  | tick =>
    unfold hbStep
    rw [if_pos h]
    exact h

/-- `hbRun` preserves the aborted state. -/
theorem hbRun_aborted_mono (evs : List HbEvent) (s : HbState)
    (h : s.aborted = true) : ((hbRun s evs).1).aborted = true := by
  induction evs generalizing s with
  | nil => exact h
  | cons e rest ih =>
    unfold hbRun
    exact ih _ (hbStep_aborted_mono s e h)

/-- If the liveness flag is down and no pong ever arrives, any run
containing a tick ends aborted. -/
theorem hbRun_no_pong_aborts (evs : List HbEvent) (s : HbState)
    (hab : s.aborted = false) (hal : s.alive = false)
    (hnp : ∀ e ∈ evs, e ≠ HbEvent.pong) (hne : evs ≠ []) :
    ((hbRun s evs).1).aborted = true := by
  cases evs with
  | nil => exact absurd rfl hne
  | cons e rest =>
    have he : e = HbEvent.tick := by
      cases e with
      | tick => rfl
      | pong => exact absurd rfl (hnp _ (List.mem_cons_self _ _))
    subst he
    unfold hbRun
    have hstep : (hbStep s .tick).1 = { s with aborted := true } := by
      unfold hbStep
      rw [if_neg (by rw [hab]; simp), if_pos (by rw [hal]; rfl)]
    rw [hstep]
    exact hbRun_aborted_mono rest _ rfl

/-- Claim C3: the watchdog is spawned iff `heartbeat_interval > 0` and
carries that interval; on a tick, a down liveness flag triggers abort and
stops the loop, otherwise the flag is cleared, a ping is sent, and the
task sleeps one interval; only a pong raises the flag; and starting from a
live state, a ping followed by any pong-free stretch up to the next tick
ends with the watchdog aborted. -/
theorem heartbeat_watchdog_policy :
    (∀ cfg : ClientConfig,
        (Client.serveWatchdog cfg).isSome ↔ 0 < cfg.heartbeat_interval) ∧
    (∀ (cfg : ClientConfig) (w : WatchdogTask),
        Client.serveWatchdog cfg = some w → w.interval = cfg.heartbeat_interval) ∧
    (∀ s : HbState, s.aborted = false → s.alive = false →
        hbStep s .tick = ({ s with aborted := true }, [HbAction.abortSignal])) ∧
    (∀ s : HbState, s.aborted = false → s.alive = true →
        hbStep s .tick =
          ({ s with alive := false }, [HbAction.ping, HbAction.sleepInterval])) ∧
    (∀ s : HbState, hbStep s .pong = ({ s with alive := true }, [])) ∧
    (∀ (s : HbState) (e : HbEvent),
        ((hbStep s e).1).alive = true → s.alive = true ∨ e = HbEvent.pong) ∧
    (∀ mid : List HbEvent, (∀ e ∈ mid, e ≠ HbEvent.pong) →
        ((hbRun ⟨true, false⟩ (HbEvent.tick :: (mid ++ [HbEvent.tick]))).1).aborted
          = true) := by
  refine ⟨?_, ?_, ?_, ?_, ?_, ?_, ?_⟩
  · intro cfg
    unfold Client.serveWatchdog
    constructor
    · intro h
      by_contra hc
      rw [if_neg hc] at h
      exact absurd h (by simp)
    · intro h
      rw [if_pos h]
      rfl
  · intro cfg w h
    unfold Client.serveWatchdog at h
    by_cases hc : cfg.heartbeat_interval > 0
    · rw [if_pos hc] at h
      cases h
      rfl
    · rw [if_neg hc] at h
      exact absurd h (by simp)
  · intro s hab hal
    unfold hbStep
    rw [if_neg (by rw [hab]; simp), if_pos (by rw [hal]; rfl)]
  · intro s hab hal
    unfold hbStep
    rw [if_neg (by rw [hab]; simp), if_neg (by rw [hal]; simp)]
  · intro s
    rfl
  · intro s e h
    cases e with
    | pong => exact Or.inr rfl
    | tick =>
      left
      unfold hbStep at h
      by_cases hab : s.aborted = true
      · rw [if_pos hab] at h
        exact h
      · rw [if_neg hab] at h
        by_cases hal : s.alive = true
        · exact hal
        · rw [if_pos (by rw [Bool.not_eq_true] at hal; rw [hal]; rfl)] at h
          exact h
  · intro mid hnp
    unfold hbRun
    have hstep : (hbStep ⟨true, false⟩ .tick).1 = ⟨false, false⟩ := rfl
    rw [hstep]
    apply hbRun_no_pong_aborts (mid ++ [HbEvent.tick]) ⟨false, false⟩ rfl rfl
    · intro e he
      rcases List.mem_append.mp he with h | h
      · exact hnp e h
      · rw [List.mem_singleton.mp h]
        exact fun hc => HbEvent.noConfusion hc
    · simp

/-- Witness for `heartbeat_watchdog_policy` at concrete inputs: with the
default config the watchdog is spawned with interval 8000, and a ping
followed immediately by a pong-free tick leaves the system aborted. -/
theorem heartbeat_watchdog_policy_witness :
    (Client.serveWatchdog (ClientConfig.defaultAt 0)).isSome = true ∧
    ((hbRun ⟨true, false⟩ [HbEvent.tick, HbEvent.tick]).1).aborted = true :=
  ⟨by
    rw [heartbeat_watchdog_policy.1 (ClientConfig.defaultAt 0)]
    norm_num [ClientConfig.defaultAt],
   by
    have h := heartbeat_watchdog_policy.2.2.2.2.2.2 [] (by intro e he; simp at he)
    simpa using h⟩

/-- The identification key of a subscription: its `(type, topic)` pair. -/
def subKey (s : Subscription) : String × String := (s.type, s.topic)

/-- One registration call preserves distinctness of `(type, topic)` keys:
it only appends a `(CALLBACK, t)` entry when the `any` check found no such
entry. -/
theorem register_preserves_nodup (cfg : ClientConfig) (t : String)
    (h : (cfg.subscriptions.map subKey).Nodup) :
    (((register_callback_listener cfg t).subscriptions).map subKey).Nodup := by
  unfold register_callback_listener
  split
  · exact h
  · rename_i hany
    dsimp only
    rw [List.map_append, List.nodup_append]
    refine ⟨h, by simp, ?_⟩
    intro a ha hb
    simp only [List.map_cons, List.map_nil, List.mem_singleton] at hb
    subst hb
    rw [List.mem_map] at ha
    obtain ⟨s, hs, hkey⟩ := ha
    unfold subKey at hkey
    rw [Prod.mk.injEq] at hkey
    apply hany
    rw [List.any_eq_true]
    exact ⟨s, hs, by simp [hkey.1, hkey.2]⟩

/-- Any sequence of registrations preserves key distinctness. -/
theorem foldl_register_nodup (ts : List String) (cfg : ClientConfig)
    (h : (cfg.subscriptions.map subKey).Nodup) :
    (((ts.foldl register_callback_listener cfg).subscriptions).map subKey).Nodup := by
  induction ts generalizing cfg with
  | nil => exact h
  | cons t rest ih => exact ih _ (register_preserves_nodup cfg t h)

/-- Claim C9: starting from the default subscription set (one EVENT
wildcard, one SYSTEM wildcard), after any sequence of
`register_callback_listener` calls the subscriptions never contain two
entries with the same `(type, topic)` pair, and registering a topic whose
`(CALLBACK, topic)` entry already exists leaves the subscription set
unchanged. -/
theorem subscription_uniqueness :
    (∀ (client_id client_secret : String) (now : Int) (ts : List String),
        (((ts.foldl register_callback_listener
            (Client.newConfig client_id client_secret now)).subscriptions).map
          subKey).Nodup) ∧
    (∀ (cfg : ClientConfig) (t : String),
        (∃ s ∈ cfg.subscriptions, s.type = "CALLBACK" ∧ s.topic = t) →
        register_callback_listener cfg t = cfg) := by
  constructor
  · intro ci cs now ts
    apply foldl_register_nodup
    show (([⟨"EVENT", "*"⟩, ⟨"SYSTEM", "*"⟩] : List Subscription).map subKey).Nodup
    decide
  · intro cfg t h
    obtain ⟨s, hs, h1, h2⟩ := h
    unfold register_callback_listener
    rw [if_pos ?_]
    rw [List.any_eq_true]
    exact ⟨s, hs, by simp [h1, h2]⟩

/-- Witness for `subscription_uniqueness`: registering topic "tA" twice
from the default set keeps keys distinct, and a second registration of an
already-present `(CALLBACK, "x")` entry is the identity. -/
theorem subscription_uniqueness_witness :
    (((["tA", "tA"].foldl register_callback_listener
        (Client.newConfig "a" "b" 0)).subscriptions).map subKey).Nodup ∧
    register_callback_listener
        { Client.newConfig "a" "b" 0 with
            subscriptions := [⟨"EVENT", "*"⟩, ⟨"SYSTEM", "*"⟩, ⟨"CALLBACK", "x"⟩] } "x" =
      { Client.newConfig "a" "b" 0 with
          subscriptions := [⟨"EVENT", "*"⟩, ⟨"SYSTEM", "*"⟩, ⟨"CALLBACK", "x"⟩] } :=
  ⟨subscription_uniqueness.1 "a" "b" 0 ["tA", "tA"],
   subscription_uniqueness.2 _ "x" ⟨⟨"CALLBACK", "x"⟩, by decide, rfl, rfl⟩⟩

/-- Model of `chrono::Duration::milliseconds(ms).to_std()`: conversion to
`std::time::Duration` fails exactly on negative durations. -/
def to_std (ms : Int) : Option Int := if ms < 0 then none else some ms

/-- Claim C10: the `to_std().unwrap()` conversions never panic — every
`sleepReconnect` in a connect trace carries a strictly positive interval
(guarded by `reconnect_interval > 0`), and every spawned watchdog carries
a strictly positive heartbeat interval (guarded by
`heartbeat_interval > 0`), and on positive input `to_std` succeeds. -/
theorem interval_to_std_never_fails :
    (∀ (inputs : List EpochInput) (ms : Int),
        ConnectAction.sleepReconnect ms ∈ Client.connectTrace inputs →
        0 < ms ∧ (to_std ms).isSome = true) ∧
    (∀ (cfg : ClientConfig) (w : WatchdogTask),
        Client.serveWatchdog cfg = some w →
        0 < w.interval ∧ (to_std w.interval).isSome = true) := by
  have hsafe : ∀ ms : Int, 0 < ms → (to_std ms).isSome = true := by
    intro ms h
    unfold to_std
    rw [if_neg (by omega)]
    rfl
  constructor
  · intro inputs
    induction inputs with
    | nil =>
      intro ms h
      simp [Client.connectTrace] at h
    | cons e rest ih =>
      intro ms h
      simp only [Client.connectTrace] at h
      rw [List.mem_cons] at h
      rcases h with h | h
      · exact absurd h (by simp)
      · cases hep : e.endpoint with
        | error err =>
          rw [hep] at h
          simp at h
        | ok u =>
          rw [hep] at h
          dsimp only at h
          rw [List.mem_cons] at h
          rcases h with h | h
          · exact absurd h (by simp)
          · cases hs : e.serveResult with
            | error err =>
              rw [hs] at h
              simp at h
            | ok v =>
              rw [hs] at h
              dsimp only at h
              by_cases hc : (e.reconnect_interval > 0 && !e.user_exit) = true
              · rw [if_pos hc] at h
                rw [List.mem_cons] at h
                rcases h with h | h
                · rw [ConnectAction.sleepReconnect.injEq] at h
                  subst h
                  rw [Bool.and_eq_true] at hc
                  have hpos : 0 < e.reconnect_interval := of_decide_eq_true hc.1
                  exact ⟨hpos, hsafe _ hpos⟩
                · exact ih ms h
              · rw [if_neg hc] at h
                simp at h
  · intro cfg w h
    unfold Client.serveWatchdog at h
    by_cases hc : cfg.heartbeat_interval > 0
    · rw [if_pos hc] at h
      cases h
      exact ⟨hc, hsafe _ hc⟩
    · rw [if_neg hc] at h
      exact absurd h (by simp)

/-- Witness for `interval_to_std_never_fails`: the default reconnect
interval 1000 reached through a concrete trace, and the default watchdog
interval 8000, both convert successfully. -/
theorem interval_to_std_never_fails_witness :
    ((0 : Int) < 1000 ∧ (to_std 1000).isSome = true) ∧
    ((0 : Int) < 8000 ∧ (to_std 8000).isSome = true) :=
  ⟨interval_to_std_never_fails.1 [⟨1000, .ok "u", .ok (), false⟩] 1000 (by decide),
   interval_to_std_never_fails.2 (ClientConfig.defaultAt 0) ⟨8000⟩ rfl⟩

end BevyStreamDingTalk
